import Mathlib

set_option maxRecDepth 4000

/-!
Shallow embedding of the WebSocket demo server (ws.go and its variants):
the handshake responder, the frame codec (one iteration of the read loop
of handleIncomingMessages), the outbound frame construction of
sendMessages / terminate, and a transition-system model of the
connection-lifecycle coordination between the read loop, the send loop
and the handler.  Bytes are modelled as Nat; machine words are Nat with
explicit reduction modulo 2^32 / 2^64 where the source overflows.
-/

/-! ## SHA-1 (FIPS 180), as called by ws.go via crypto/sha1 -/

/-- Reduce a value to a 32-bit word, as uint32 arithmetic does in Go. -/
def w32 (x : Nat) : Nat := x % 4294967296

/-- Rotate a 32-bit word left by n bits. -/
def rotl32 (n x : Nat) : Nat := ((x <<< n) ||| (x >>> (32 - n))) % 4294967296

/-- Big-endian 4-byte encoding of a 32-bit word. -/
def be32 (x : Nat) : List Nat :=
  [(x >>> 24) % 256, (x >>> 16) % 256, (x >>> 8) % 256, x % 256]

/-- Big-endian 8-byte encoding of a 64-bit value. -/
def be64 (x : Nat) : List Nat :=
  [(x >>> 56) % 256, (x >>> 48) % 256, (x >>> 40) % 256, (x >>> 32) % 256,
   (x >>> 24) % 256, (x >>> 16) % 256, (x >>> 8) % 256, x % 256]

/-- SHA-1 round function f_t. -/
def sha1F (t b c d : Nat) : Nat :=
  if t < 20 then (b &&& c) ||| ((b ^^^ 4294967295) &&& d)
  else if t < 40 then b ^^^ c ^^^ d
  else if t < 60 then (b &&& c) ||| (b &&& d) ||| (c &&& d)
  else b ^^^ c ^^^ d

/-- SHA-1 round constant K_t. -/
def sha1K (t : Nat) : Nat :=
  if t < 20 then 0x5A827999
  else if t < 40 then 0x6ED9EBA1
  else if t < 60 then 0x8F1BBCDC
  else 0xCA62C1D6

/-- Message schedule: 80 32-bit words derived from one 64-byte block. -/
def sha1W (block : List Nat) : List Nat :=
  let w0 := (List.range 16).map fun i =>
    (block.getD (4 * i) 0) <<< 24 ||| (block.getD (4 * i + 1) 0) <<< 16 |||
    (block.getD (4 * i + 2) 0) <<< 8 ||| block.getD (4 * i + 3) 0
  (List.range 64).foldl
    (fun w i =>
      let t := i + 16
      w ++ [rotl32 1 (w.getD (t - 3) 0 ^^^ w.getD (t - 8) 0 ^^^
                      w.getD (t - 14) 0 ^^^ w.getD (t - 16) 0)])
    w0

/-- The five-word SHA-1 chaining state. -/
structure Sha1State where
  h0 : Nat
  h1 : Nat
  h2 : Nat
  h3 : Nat
  h4 : Nat
deriving DecidableEq

/-- Initial SHA-1 chaining values. -/
def sha1Init : Sha1State :=
  ⟨0x67452301, 0xEFCDAB89, 0x98BADCFE, 0x10325476, 0xC3D2E1F0⟩

/-- Compress one 64-byte block into the chaining state. -/
def sha1Block (st : Sha1State) (block : List Nat) : Sha1State :=
  let w := sha1W block
  let r := (List.range 80).foldl
    (fun (s : Nat × Nat × Nat × Nat × Nat) t =>
      let (a, b, c, d, e) := s
      let tmp := w32 (rotl32 5 a + sha1F t b c d + e + sha1K t + w.getD t 0)
      (tmp, a, rotl32 30 b, c, d))
    (st.h0, st.h1, st.h2, st.h3, st.h4)
  ⟨w32 (st.h0 + r.1), w32 (st.h1 + r.2.1), w32 (st.h2 + r.2.2.1),
   w32 (st.h3 + r.2.2.2.1), w32 (st.h4 + r.2.2.2.2)⟩

/-- Merkle-Damgard padding: a 0x80 byte, zeros to 56 mod 64, then the
bit length as a big-endian 64-bit integer. -/
def sha1Pad (msg : List Nat) : List Nat :=
  let l := msg.length
  msg ++ [128] ++ List.replicate ((119 - l % 64) % 64) 0 ++ be64 (8 * l)

/-- Fold the compression function over consecutive 64-byte blocks.  The
first argument is fuel bounding the number of blocks; structural
recursion on it keeps the definition kernel-evaluable. -/
def sha1Blocks : Nat → Sha1State → List Nat → Sha1State
  | 0, st, _ => st
  | fuel + 1, st, l =>
    if l.isEmpty then st
    else sha1Blocks fuel (sha1Block st (l.take 64)) (l.drop 64)

/-- SHA-1 of a byte sequence: 20 output bytes. -/
def sha1 (msg : List Nat) : List Nat :=
  let padded := sha1Pad msg
  let st := sha1Blocks padded.length sha1Init padded
  be32 st.h0 ++ be32 st.h1 ++ be32 st.h2 ++ be32 st.h3 ++ be32 st.h4

/-! ## Standard base64, as called by ws.go via base64.StdEncoding -/

/-- The standard base64 alphabet. -/
def b64Alphabet : List Char :=
  "ABCDEFGHIJKLMNOPQRSTUVWXYZabcdefghijklmnopqrstuvwxyz0123456789+/".data

/-- Digit n of the standard base64 alphabet. -/
def b64Char (n : Nat) : Char := b64Alphabet.getD n 'A'

/-- Standard base64 encoding with '=' padding. -/
def base64Encode : List Nat → List Char
  | b1 :: b2 :: b3 :: rest =>
    let n := b1 <<< 16 ||| b2 <<< 8 ||| b3
    b64Char (n >>> 18) :: b64Char ((n >>> 12) &&& 63) ::
    b64Char ((n >>> 6) &&& 63) :: b64Char (n &&& 63) :: base64Encode rest
  | [b1, b2] =>
    let n := b1 <<< 16 ||| b2 <<< 8
    [b64Char (n >>> 18), b64Char ((n >>> 12) &&& 63), b64Char ((n >>> 6) &&& 63), '=']
  | [b1] =>
    let n := b1 <<< 16
    [b64Char (n >>> 18), b64Char ((n >>> 12) &&& 63), '=', '=']
  | [] => []

/-! ## Handshake responder (websocketHandler in ws.go) -/

/-- The protocol-constant magic GUID appended to the client key. -/
def magicGUID : String := "258EAFA5-E914-47DA-95CA-C5AB0DC85B11"

/-- Bytes of a string; the header values involved are ASCII, where this
coincides with Go's []byte conversion. -/
def strBytes (s : String) : List Nat := s.data.map Char.toNat

/-- acceptKey = base64(SHA1(key ++ magic GUID)), computed by
websocketHandler from the Sec-WebSocket-Key header value. -/
def acceptKey (key : String) : String :=
  String.mk (base64Encode (sha1 (strBytes (key ++ magicGUID))))

/-- Outcome of websocketHandler before any frame traffic: either an HTTP
error response (http.Error with the given status) or an upgraded
connection whose 101 response carries the given accept key. -/
inductive HandshakeOutcome where
  | httpError (status : Nat)
  | upgraded (accept : String)
deriving DecidableEq

/-- websocketHandler, ws.go lines 19-94: reject with 400 unless the
Upgrade header equals "websocket"; read the Sec-WebSocket-Key header
(Header.Get yields "" when the header is absent) with no further
validation; reject with 500 when the hijack fails; otherwise send the
101 response carrying the derived accept key. -/
def websocketHandler (upgradeHeader secWebSocketKey : String) (hijackOk : Bool) :
    HandshakeOutcome :=
  if upgradeHeader ≠ "websocket" then .httpError 400
  else if !hijackOk then .httpError 500
  else .upgraded (acceptKey secWebSocketKey)

/-! ## Masking transform (the XOR loops in handleIncomingMessages and
sendMessages) -/

/-- The per-byte transform payload[i] ^= key[i mod 4], started at index
i; identical loops appear at ws.go lines 212-214 (unmask) and 296-299
(mask). -/
def maskFrom (key : List Nat) (i : Nat) : List Nat → List Nat
  | [] => []
  | b :: rest => (b ^^^ key.getD (i % 4) 0) :: maskFrom key (i + 1) rest

/-- Mask (equivalently unmask) a payload with a 4-byte key. -/
def maskBytes (key payload : List Nat) : List Nat := maskFrom key 0 payload

/-! ## Frame codec: one iteration of the read loop of
handleIncomingMessages (ws.go lines 115-245) -/

/-- conn.Read into a buffer of size n, modelled as consuming exactly n
bytes; none models a read error, which the loop answers by signalling
termination and returning. -/
def readBytes (n : Nat) (s : List Nat) : Option (List Nat × List Nat) :=
  if n ≤ s.length then some (s.take n, s.drop n) else none

/-- What the read loop does after one frame: keep looping, or return
after calling terminate (the close-frame branch). -/
inductive StepAction where
  | continueLoop
  | terminated
deriving DecidableEq

/-- Close frame written by terminate (ws.go lines 366-370): FIN + close
opcode, length 4, status 1000, reason "OK". -/
def closeFrameWithReason : List Nat := [0x88, 0x04, 0x03, 0xE8, 79, 75]

/-- Pong frame written for an inbound ping (ws.go line 234): FIN + pong
opcode, no payload. -/
def pongFrame : List Nat := [0b10001010, 0b00000000]

/-- Everything observable from one iteration of the read loop: the
parsed header fields, the payload length used for allocation and reads,
the shadowed 64-bit extended length (ws.go line 177 declares a new
variable with :=, so the computed value is only logged; it is recorded
here as a ghost field), the raw and unmasked payload, the text message
delivered to the application (the "Received message" print), the bytes
written back to the connection, and how the loop proceeds. -/
structure FrameStep where
  fin : Bool
  opcode : Nat
  masked : Bool
  ext64 : Option Nat
  payloadLenUsed : Nat
  maskKey : List Nat
  payloadRaw : List Nat
  payload : List Nat
  delivered : Option (List Nat)
  outBytes : List Nat
  action : StepAction
  rest : List Nat
deriving DecidableEq

/-- The opcode dispatch of ws.go lines 225-241, reached only when
payloadLen > 0: (delivered message, bytes written, loop action). -/
def frameDispatch (opcode : Nat) (fin : Bool) (payload : List Nat) :
    Option (List Nat) × List Nat × StepAction :=
  if opcode == 1 && fin then (some payload, [], .continueLoop)
  else if opcode == 8 then (none, closeFrameWithReason, .terminated)
  else if opcode == 9 then (none, pongFrame, .continueLoop)
  else if opcode == 10 then (none, [], .continueLoop)
  else (none, [], .continueLoop)

/-- One iteration of handleIncomingMessages: read the 2-byte header,
parse FIN/opcode/MASK/length, read the extended length (16-bit updates
payloadLen; the 64-bit case computes a shadowed variable and leaves
payloadLen at 127, exactly as the source does), read the mask key when
MASK is set, read payloadLen payload bytes, unmask when masked, and
dispatch on the opcode; none models a read error aborting the frame. -/
def handleIncomingFrame (input : List Nat) : Option FrameStep :=
  match readBytes 2 input with
  | none => none
  | some (hdr, s1) =>
    let b0 := hdr.getD 0 0
    let b1 := hdr.getD 1 0
    let fin : Bool := (b0 &&& 128) != 0
    let opcode := b0 &&& 15
    let masked : Bool := (b1 &&& 128) != 0
    let baseLen := b1 &&& 127
    let extStep : Option (Nat × Option Nat × List Nat) :=
      if baseLen == 126 then
        match readBytes 2 s1 with
        | none => none
        | some (ext, s2) => some ((ext.getD 0 0) <<< 8 ||| ext.getD 1 0, none, s2)
      else if baseLen == 127 then
        match readBytes 8 s1 with
        | none => none
        | some (ext, s2) =>
          some (baseLen,
            some ((ext.getD 0 0) <<< 56 ||| (ext.getD 1 0) <<< 48 |||
                  (ext.getD 2 0) <<< 40 ||| (ext.getD 3 0) <<< 32 |||
                  (ext.getD 4 0) <<< 24 ||| (ext.getD 5 0) <<< 16 |||
                  (ext.getD 6 0) <<< 8 ||| ext.getD 7 0),
            s2)
      else some (baseLen, none, s1)
    match extStep with
    | none => none
    | some (payloadLen, ext64, s2) =>
      let maskStep : Option (List Nat × List Nat) :=
        if masked then readBytes 4 s2 else some ([], s2)
      match maskStep with
      | none => none
      | some (maskKey, s3) =>
        if 0 < payloadLen then
          match readBytes payloadLen s3 with
          | none => none
          | some (pl, s4) =>
            let payload := if masked then maskBytes maskKey pl else pl
            let d := frameDispatch opcode fin payload
            some { fin := fin, opcode := opcode, masked := masked,
                   ext64 := ext64, payloadLenUsed := payloadLen,
                   maskKey := maskKey, payloadRaw := pl, payload := payload,
                   delivered := d.1, outBytes := d.2.1, action := d.2.2,
                   rest := s4 }
        else
          some { fin := fin, opcode := opcode, masked := masked,
                 ext64 := ext64, payloadLenUsed := payloadLen,
                 maskKey := maskKey, payloadRaw := [], payload := [],
                 delivered := none, outBytes := [], action := .continueLoop,
                 rest := s3 }

/-! ## Outbound frame construction of sendMessages (ws.go lines 316-333) -/

/-- The 8-byte frame sendMessages builds for the periodic text message
"hi": byte 0 = FIN + text opcode, byte 1 = MASK bit + length 2, bytes
2-5 = the mask key, bytes 6-7 = the masked payload. -/
def sendMessagesFrame (mask_key : List Nat) : List Nat :=
  [0b10000001, 0b10000010] ++ mask_key ++ maskBytes mask_key [104, 105]

/-! ## Connection lifecycle (websocketHandler lines 96-108, the two
loops, and terminate, ws.go lines 354-394)

Interleaving model of one connection.  Three tasks share the stream:
the read loop (handleIncomingMessages), the send loop (sendMessages)
and the handler goroutine that blocks on terminationChan and then calls
terminate.  terminate is split into its two stream effects: writing the
close frame, then conn.Close.  Transport behaviour: a write reaches the
wire iff the connection is not yet closed and the client has not gone
away; reads fail once the connection is closed or the client is gone.
close(terminationChan) is modelled as guarded by the channel not being
closed yet (a second close would crash the process, after which nothing
further is sent, so the guarded system admits every frame-sending
behaviour of the source).  The handler's enclosing header loop can run
the whole round again (the goroutines and the wait are inside the
range-over-headers loop); the restart step resets the per-round tasks
and the (fresh) termination channel, while conn stays closed. -/

/-- Position of the read loop: at the top of the loop, returned from a
successful read of a close frame, inside terminate having written the
close frame, or returned. -/
inductive ReadPhase where
  | atLoop
  | gotClose
  | termWrote
  | done
deriving DecidableEq

/-- Position of the send loop. -/
inductive SendPhase where
  | running
  | done
deriving DecidableEq

/-- Position of the handler goroutine around its terminate call. -/
inductive HandlerPhase where
  | waiting
  | termWrote
  | done
deriving DecidableEq

/-- State of one connection: task positions, whether terminationChan is
closed, whether conn.Close has happened, the pending client close frame,
whether the client transport is gone, and how many close frames the
server has put on the wire. -/
structure WsConn where
  readPh : ReadPhase
  sendPh : SendPhase
  handlerPh : HandlerPhase
  termClosed : Bool
  connClosed : Bool
  clientClose : Bool
  clientEOF : Bool
  closeSent : Nat
deriving DecidableEq

/-- A stream write reaches the client iff conn is open and the client
transport is alive. -/
def writeOk (s : WsConn) : Bool := !s.connClosed && !s.clientEOF

/-- State immediately after the handshake. -/
def wsInit : WsConn :=
  ⟨.atLoop, .running, .waiting, false, false, false, false, 0⟩

/-- One atomic step of the connection system. -/
inductive WsStep : WsConn → WsConn → Prop where
  | envClose (s : WsConn) : s.clientClose = false →
      WsStep s { s with clientClose := true }
  | envEOF (s : WsConn) :
      WsStep s { s with clientEOF := true }
  | readSeesTerm (s : WsConn) : s.readPh = .atLoop → s.termClosed = true →
      WsStep s { s with readPh := .done }
  | readCloseFrame (s : WsConn) : s.readPh = .atLoop → s.termClosed = false →
      s.clientClose = true → s.connClosed = false → s.clientEOF = false →
      WsStep s { s with readPh := .gotClose, clientClose := false }
  | readTermWrite (s : WsConn) : s.readPh = .gotClose →
      WsStep s { s with readPh := .termWrote,
                        closeSent := s.closeSent + if writeOk s then 1 else 0 }
  | readTermClose (s : WsConn) : s.readPh = .termWrote →
      WsStep s { s with readPh := .done, connClosed := true }
  | readFail (s : WsConn) : s.readPh = .atLoop → s.termClosed = false →
      (s.connClosed = true ∨ s.clientEOF = true) →
      WsStep s { s with readPh := .done, termClosed := true }
  | sendSeesTerm (s : WsConn) : s.sendPh = .running → s.termClosed = true →
      WsStep s { s with sendPh := .done }
  | sendTick (s : WsConn) : s.sendPh = .running → s.termClosed = false →
      writeOk s = true → WsStep s s
  | sendFail (s : WsConn) : s.sendPh = .running → s.termClosed = false →
      writeOk s = false →
      WsStep s { s with sendPh := .done, termClosed := true }
  | handlerWake (s : WsConn) : s.handlerPh = .waiting → s.termClosed = true →
      WsStep s { s with handlerPh := .termWrote,
                        closeSent := s.closeSent + if writeOk s then 1 else 0 }
  | handlerTermClose (s : WsConn) : s.handlerPh = .termWrote →
      WsStep s { s with handlerPh := .done, connClosed := true }
  | handlerRestart (s : WsConn) : s.handlerPh = .done →
      WsStep s { s with handlerPh := .waiting, readPh := .atLoop,
                        sendPh := .running, termClosed := false }

/-- States reachable from the post-handshake state. -/
def ReachableWs (s : WsConn) : Prop := Relation.ReflTransGen WsStep wsInit s

/-- Inductive invariant of the connection system: a closed termination
channel means the stream already failed in one direction; a finished
handler has closed the connection; no close frame is on the wire while
the read loop has not yet passed its terminate-write with the
connection still open; and at most one close frame is ever on the
wire. -/
def wsInvariant (s : WsConn) : Prop :=
  (s.termClosed = true → s.connClosed = true ∨ s.clientEOF = true) ∧
  (s.handlerPh = .done → s.connClosed = true) ∧
  ((s.readPh = .atLoop ∨ s.readPh = .gotClose) → s.connClosed = false →
    s.closeSent = 0) ∧
  s.closeSent ≤ 1

lemma wsInvariant_init : wsInvariant wsInit := by
  simp [wsInvariant, wsInit]

lemma wsInvariant_step {s t : WsConn} (hst : WsStep s t) (hs : wsInvariant s) :
    wsInvariant t := by
  obtain ⟨h1, h2, h3, h4⟩ := hs
  cases hst with
  | envClose h => exact ⟨h1, h2, h3, h4⟩
  | envEOF => exact ⟨fun _ => Or.inr rfl, h2, h3, h4⟩
  | readSeesTerm h ht =>
    exact ⟨h1, h2, fun hor => by rcases hor with h' | h' <;> exact ReadPhase.noConfusion h', h4⟩
  | readCloseFrame h ht hc hcc he =>
    exact ⟨h1, h2, fun _ => h3 (Or.inl h), h4⟩
  | readTermWrite h =>
    refine ⟨h1, h2,
      fun hor => by rcases hor with h' | h' <;> exact ReadPhase.noConfusion h', ?_⟩
    by_cases hw : writeOk s = true
    · have hcc : s.connClosed = false := by
        simp [writeOk] at hw
        exact hw.1
      have h0 : s.closeSent = 0 := h3 (Or.inr h) hcc
      simp [hw, h0]
    · simp [hw, h4]
  | readTermClose h =>
    exact ⟨fun _ => Or.inl rfl, fun _ => rfl,
      fun hor => by rcases hor with h' | h' <;> exact ReadPhase.noConfusion h', h4⟩
  | readFail h ht hor =>
    exact ⟨fun _ => hor, h2,
      fun hor' => by rcases hor' with h' | h' <;> exact ReadPhase.noConfusion h', h4⟩
  | sendSeesTerm h ht => exact ⟨h1, h2, h3, h4⟩
  | sendTick h ht hw => exact ⟨h1, h2, h3, h4⟩
  | sendFail h ht hw =>
    have hor : s.connClosed = true ∨ s.clientEOF = true := by
      cases hcc : s.connClosed
      · cases hce : s.clientEOF
        · simp [writeOk, hcc, hce] at hw
        · exact Or.inr rfl
      · exact Or.inl rfl
    exact ⟨fun _ => hor, h2, h3, h4⟩
  | handlerWake h ht =>
    have hw : writeOk s = false := by
      rcases h1 ht with hc | he
      · simp [writeOk, hc]
      · simp [writeOk, he]
    refine ⟨h1, fun hh => HandlerPhase.noConfusion hh, ?_, by simp [hw, h4]⟩
    intro hor hcc
    have h0 := h3 hor hcc
    simp [hw, h0]
  | handlerTermClose h =>
    exact ⟨fun _ => Or.inl rfl, fun _ => rfl, fun _ hcc => Bool.noConfusion hcc, h4⟩
  | handlerRestart h =>
    have hcc : s.connClosed = true := h2 h
    exact ⟨fun htc => Bool.noConfusion htc, fun hh => HandlerPhase.noConfusion hh,
      fun _ hcc2 => by rw [hcc] at hcc2; exact Bool.noConfusion hcc2, h4⟩

lemma wsInvariant_reachable {s : WsConn} (h : ReachableWs s) : wsInvariant s := by
  induction h with
  | refl => exact wsInvariant_init
  | tail _ hstep ih => exact wsInvariant_step hstep ih

/-- A complete close exchange: the client close frame arrives, the read
loop runs terminate (one close frame on the wire, conn closed), the
send loop's next write fails and closes the termination channel, the
handler wakes, its close-frame write fails on the closed conn, and
everything winds down. -/
def wsClosedFinal : WsConn := ⟨.done, .done, .done, true, true, false, false, 1⟩

lemma wsClosedFinal_reachable : ReachableWs wsClosedFinal := by
  have s1 : WsStep wsInit ⟨.atLoop, .running, .waiting, false, false, true, false, 0⟩ :=
    WsStep.envClose wsInit rfl
  have s2 : WsStep ⟨.atLoop, .running, .waiting, false, false, true, false, 0⟩
      ⟨.gotClose, .running, .waiting, false, false, false, false, 0⟩ :=
    WsStep.readCloseFrame _ rfl rfl rfl rfl rfl
  have s3 : WsStep ⟨.gotClose, .running, .waiting, false, false, false, false, 0⟩
      ⟨.termWrote, .running, .waiting, false, false, false, false, 1⟩ :=
    WsStep.readTermWrite _ rfl
  have s4 : WsStep ⟨.termWrote, .running, .waiting, false, false, false, false, 1⟩
      ⟨.done, .running, .waiting, false, true, false, false, 1⟩ :=
    WsStep.readTermClose _ rfl
  have s5 : WsStep ⟨.done, .running, .waiting, false, true, false, false, 1⟩
      ⟨.done, .done, .waiting, true, true, false, false, 1⟩ :=
    WsStep.sendFail _ rfl rfl rfl
  have s6 : WsStep ⟨.done, .done, .waiting, true, true, false, false, 1⟩
      ⟨.done, .done, .termWrote, true, true, false, false, 1⟩ :=
    WsStep.handlerWake _ rfl rfl
  have s7 : WsStep ⟨.done, .done, .termWrote, true, true, false, false, 1⟩
      wsClosedFinal :=
    WsStep.handlerTermClose _ rfl
  exact Relation.ReflTransGen.head s1 (Relation.ReflTransGen.head s2
    (Relation.ReflTransGen.head s3 (Relation.ReflTransGen.head s4
    (Relation.ReflTransGen.head s5 (Relation.ReflTransGen.head s6
    (Relation.ReflTransGen.single s7))))))

/-! ## Helper lemmas about the codec -/

lemma prod3_eq {α β γ : Type} {a a' : α} {b b' : β} {c c' : γ}
    (h : (a, b, c) = (a', b', c')) : a = a' ∧ b = b' ∧ c = c' := by
  injection h with h1 h23
  injection h23 with h2 h3
  exact ⟨h1, h2, h3⟩

/-- Every successfully decoded frame obeys the source's structure: the
delivered payload is the raw bytes unmasked exactly when MASK was set,
and the dispatch outcome is the opcode dispatch when the payload length
used is positive and a no-op otherwise. -/
lemma handleIncomingFrame_inv {input : List Nat} {st : FrameStep}
    (h : handleIncomingFrame input = some st) :
    st.payload = (if st.masked then maskBytes st.maskKey st.payloadRaw else st.payloadRaw) ∧
    (st.delivered, st.outBytes, st.action) =
      (if 0 < st.payloadLenUsed then frameDispatch st.opcode st.fin st.payload
       else (none, [], StepAction.continueLoop)) := by
  simp only [handleIncomingFrame] at h
  repeat' split at h
  any_goals exact Option.noConfusion h
  all_goals injection h with h
  all_goals subst h
  all_goals simp_all [maskBytes, maskFrom]

lemma strBytes_append (s t : String) : strBytes (s ++ t) = strBytes s ++ strBytes t := by
  simp only [strBytes]
  rw [show (s ++ t).data = s.data ++ t.data from rfl, List.map_append]

/-! ## Concrete frames used as witnesses and counterexamples -/

/-- A masked ping (opcode 9) carrying "abc", mask key 0 0 0 0. -/
def pingAbcInput : List Nat := [137, 131, 0, 0, 0, 0, 97, 98, 99]

/-- The step the read loop takes on pingAbcInput. -/
def pingAbcStep : FrameStep :=
  ⟨true, 9, true, none, 3, [0, 0, 0, 0], [97, 98, 99], [97, 98, 99], none,
   [138, 0], .continueLoop, []⟩

/-- The frame bytes 81 02 68 69: unmasked final text frame "hi". -/
def hiUnmaskedInput : List Nat := [129, 2, 104, 105]

/-- The step the read loop takes on hiUnmaskedInput. -/
def hiUnmaskedStep : FrameStep :=
  ⟨true, 1, false, none, 2, [], [104, 105], [104, 105], some [104, 105], [],
   .continueLoop, []⟩

/-- A masked frame with reserved opcode 3 and a 1-byte payload. -/
def opcode3Input : List Nat := [131, 129, 0, 0, 0, 0, 65]

/-- The step the read loop takes on opcode3Input. -/
def opcode3Step : FrameStep :=
  ⟨true, 3, true, none, 1, [0, 0, 0, 0], [65], [65], none, [], .continueLoop, []⟩

/-- A masked close frame (opcode 8) with empty payload: no status code. -/
def emptyCloseInput : List Nat := [136, 128, 1, 2, 3, 4]

/-- The step the read loop takes on emptyCloseInput. -/
def emptyCloseStep : FrameStep :=
  ⟨true, 8, true, none, 0, [1, 2, 3, 4], [], [], none, [], .continueLoop, []⟩

/-- A masked text frame with base length field 127 whose 8 extended
length bytes declare 128, followed by a 4-byte mask key and 128 payload
bytes. -/
def len127Input : List Nat :=
  [129, 255, 0, 0, 0, 0, 0, 0, 0, 128, 9, 9, 9, 9] ++ List.replicate 128 65

/-! ## Claim theorems -/

/-- Claim C1: the Sec-WebSocket-Accept value computed by the handshake
responder equals base64(SHA1(key ++ magic GUID)) for every request key,
where ++ is byte-string concatenation, and on the RFC 6455 sample key
it equals the RFC's worked accept key. -/
theorem acceptKey_spec :
    (∀ key : String, acceptKey key =
      String.mk (base64Encode (sha1 (strBytes key ++ strBytes magicGUID)))) ∧
    acceptKey "dGhlIHNhbXBsZSBub25jZQ==" = "s3pPLMBiTxaQ9kYGzzhZRbK+xOo=" := by
  constructor
  · intro key
    unfold acceptKey
    rw [strBytes_append]
  · decide

/-- Claim C2: applying the per-byte transform payload[i] ^= K[i mod 4]
twice with any 4-byte mask key recovers the original payload: the
masking transform of the codec is its own inverse. -/
theorem mask_involution (P K : List Nat) (h : K.length = 4) :
    maskBytes K (maskBytes K P) = P := by
  have main : ∀ (Q : List Nat) (i : Nat), maskFrom K i (maskFrom K i Q) = Q := by
    intro Q
    induction Q with
    | nil => intro i; rfl
    | cons b rest ih =>
      intro i
      simp [maskFrom, ih, Nat.xor_cancel_right]
  exact main P 0

/-- Witness for C2 at the payload "hi" and the mask key from the
source's worked example. -/
theorem mask_involution_witness :
    ([55, 250, 33, 61] : List Nat).length = 4 ∧
    maskBytes [55, 250, 33, 61] (maskBytes [55, 250, 33, 61] [104, 105]) = [104, 105] :=
  ⟨by decide, mask_involution [104, 105] [55, 250, 33, 61] (by decide)⟩

/-- Claim C3 (the code contradicts it): on a frame whose base length
field is 127 and whose 8 extended-length bytes spell 128, the decoder
computes the big-endian 64-bit value 128 into a shadowed variable
(ghost field ext64) but allocates and reads 127 bytes, leaving one of
the client's 128 payload bytes unread. -/
theorem extended_length_shadowed :
    (handleIncomingFrame len127Input).map
      (fun st => (st.ext64, st.payloadLenUsed, st.rest.length)) =
      some (some 128, 127, 1) := by decide

/-- Claim C4 (the code contradicts it): the periodic text frame built by
sendMessages, evaluated at the mask key of the source's worked example,
has MASK=1 in byte 1 (bit 7 set) and carries the 4-byte mask key between
header and payload. -/
theorem sendMessages_text_frame_masked :
    sendMessagesFrame [55, 250, 33, 61] = [129, 130, 55, 250, 33, 61, 95, 147] ∧
    (sendMessagesFrame [55, 250, 33, 61]).getD 1 0 &&& 128 ≠ 0 := by decide

/-- Counterexample to claim C5: a ping carrying "abc" produces the
2-byte pong frame with empty payload, not a pong echoing "abc". -/
theorem ping_abc_pong_empty :
    (handleIncomingFrame pingAbcInput).map FrameStep.outBytes = some [138, 0] ∧
    ([138, 0] : List Nat) ≠ [138, 3, 97, 98, 99] := by decide

/-- Claim C5 as amended: every received ping frame with a non-empty
payload produces exactly one outbound pong frame, and that pong has an
empty payload regardless of the ping payload. -/
theorem ping_pong_empty_payload :
    ∀ (input : List Nat) (st : FrameStep), handleIncomingFrame input = some st →
      st.opcode = 9 → 0 < st.payloadLenUsed →
      st.outBytes = pongFrame ∧ st.action = .continueLoop ∧ st.delivered = none := by
  intro input st h hop hlen
  have h2 := (handleIncomingFrame_inv h).2
  rw [if_pos hlen, hop] at h2
  have hd : frameDispatch 9 st.fin st.payload = (none, pongFrame, .continueLoop) := by
    simp [frameDispatch]
  rw [hd] at h2
  obtain ⟨ha, hb, hc⟩ := prod3_eq h2
  exact ⟨hb, hc, ha⟩

/-- Witness for the amended C5 at the masked ping "abc". -/
theorem ping_pong_empty_payload_witness :
    pingAbcStep.outBytes = pongFrame ∧ pingAbcStep.action = .continueLoop ∧
    pingAbcStep.delivered = none :=
  ping_pong_empty_payload pingAbcInput pingAbcStep (by decide) (by decide) (by decide)

/-- Claim C6: over the whole lifetime of a connection the server puts
at most one close frame on the wire; once the connection is CLOSED it
stays CLOSED; and the close exchange can run to completion, ending
CLOSED with exactly one close frame sent. -/
theorem close_frame_at_most_once :
    (∀ s, ReachableWs s → s.closeSent ≤ 1) ∧
    (∀ s t, WsStep s t → s.connClosed = true → t.connClosed = true) ∧
    ReachableWs wsClosedFinal ∧ wsClosedFinal.closeSent = 1 ∧
    wsClosedFinal.connClosed = true := by
  refine ⟨fun s h => (wsInvariant_reachable h).2.2.2, ?_,
    wsClosedFinal_reachable, rfl, rfl⟩
  intro s t hst hc
  cases hst <;> first | exact hc | rfl

/-- Witness for C6 at the initial state. -/
theorem close_frame_at_most_once_witness : wsInit.closeSent ≤ 1 :=
  close_frame_at_most_once.1 wsInit Relation.ReflTransGen.refl

/-- Counterexample to claim C7: the unmasked text frame 81 02 68 69 is
not rejected; its payload "hi" is delivered and the read loop
continues. -/
theorem unmasked_hi_delivered :
    (handleIncomingFrame hiUnmaskedInput).map (fun st => (st.delivered, st.action)) =
      some (some [104, 105], StepAction.continueLoop) := by decide

/-- Claim C7 as amended: a frame decoded with MASK=0 is accepted rather
than rejected; the unmask step is skipped, so its payload is processed
verbatim, and an unmasked final text frame is delivered to the
application. -/
theorem unmasked_frames_accepted :
    ∀ (input : List Nat) (st : FrameStep), handleIncomingFrame input = some st →
      st.masked = false →
      st.payload = st.payloadRaw ∧
      (st.opcode = 1 → st.fin = true → 0 < st.payloadLenUsed →
        st.delivered = some st.payloadRaw) := by
  intro input st h hm
  obtain ⟨h1, h2⟩ := handleIncomingFrame_inv h
  rw [hm] at h1
  simp at h1
  refine ⟨h1, fun hop hfin hlen => ?_⟩
  rw [if_pos hlen, hop, hfin] at h2
  have hd : frameDispatch 1 true st.payload = (some st.payload, [], .continueLoop) := by
    simp [frameDispatch]
  rw [hd] at h2
  obtain ⟨ha, _, _⟩ := prod3_eq h2
  rw [ha, h1]

/-- Witness for the amended C7 at the unmasked text frame "hi". -/
theorem unmasked_frames_accepted_witness :
    hiUnmaskedStep.delivered = some hiUnmaskedStep.payloadRaw :=
  (unmasked_frames_accepted hiUnmaskedInput hiUnmaskedStep (by decide) (by decide)).2
    (by decide) (by decide) (by decide)

/-- Counterexample to claim C8: a frame with reserved opcode 3 does not
fail the connection; the read loop continues and writes nothing. -/
theorem reserved_opcode_not_failed :
    (handleIncomingFrame opcode3Input).map (fun st => (st.action, st.outBytes)) =
      some (StepAction.continueLoop, []) := by decide

/-- Claim C8 as amended: a received frame with a reserved or unknown
opcode (3-7 or 11-15) is merely logged and ignored: no close frame is
sent, nothing is delivered, and the read loop continues. -/
theorem reserved_opcode_ignored :
    ∀ (input : List Nat) (st : FrameStep), handleIncomingFrame input = some st →
      (3 ≤ st.opcode ∧ st.opcode ≤ 7) ∨ (11 ≤ st.opcode ∧ st.opcode ≤ 15) →
      st.action = .continueLoop ∧ st.outBytes = [] ∧ st.delivered = none := by
  intro input st h hop
  have h2 := (handleIncomingFrame_inv h).2
  by_cases hlen : 0 < st.payloadLenUsed
  · rw [if_pos hlen] at h2
    have e1 : (st.opcode == 1) = false := by simp; omega
    have e8 : (st.opcode == 8) = false := by simp; omega
    have e9 : (st.opcode == 9) = false := by simp; omega
    have e10 : (st.opcode == 10) = false := by simp; omega
    have hd : frameDispatch st.opcode st.fin st.payload = (none, [], .continueLoop) := by
      simp [frameDispatch, e1, e8, e9, e10]
    rw [hd] at h2
    obtain ⟨ha, hb, hc⟩ := prod3_eq h2
    exact ⟨hc, hb, ha⟩
  · rw [if_neg hlen] at h2
    obtain ⟨ha, hb, hc⟩ := prod3_eq h2
    exact ⟨hc, hb, ha⟩

/-- Witness for the amended C8 at the reserved-opcode-3 frame. -/
theorem reserved_opcode_ignored_witness :
    opcode3Step.action = .continueLoop ∧ opcode3Step.outBytes = [] ∧
    opcode3Step.delivered = none :=
  reserved_opcode_ignored opcode3Input opcode3Step (by decide)
    (Or.inl ⟨by decide, by decide⟩)

/-- Counterexample to claim C9: an upgrade request with Upgrade:
websocket and an absent (hence empty) Sec-WebSocket-Key is not rejected
with 400; the handshake proceeds and a connection is created with the
accept key computed from the empty string. -/
theorem empty_key_accepted :
    websocketHandler "websocket" "" true = .upgraded (acceptKey "") ∧
    websocketHandler "websocket" "" true ≠ .httpError 400 := by
  refine ⟨rfl, ?_⟩
  intro hc
  rw [show websocketHandler "websocket" "" true = .upgraded (acceptKey "") from rfl] at hc
  exact HandshakeOutcome.noConfusion hc

/-- Claim C9 as amended: the handshake handler replies 400 exactly when
the Upgrade header differs from "websocket"; the Sec-WebSocket-Key value
is never validated, so an absent or empty key still upgrades. -/
theorem reject400_iff_upgrade_header :
    ∀ (up key : String) (hj : Bool),
      websocketHandler up key hj = .httpError 400 ↔ up ≠ "websocket" := by
  intro up key hj
  unfold websocketHandler
  by_cases h : up = "websocket"
  · simp [h]
    cases hj <;> simp
  · simp [h]

/-- Claim C10: the opcode dispatch of the read loop sits entirely inside
the branch guarded by payload length > 0, so a decoded frame whose
payload length is 0 (an empty close frame or empty ping among them)
delivers nothing, writes nothing back, and the loop just continues. -/
theorem dispatch_requires_payload :
    ∀ (input : List Nat) (st : FrameStep), handleIncomingFrame input = some st →
      st.payloadLenUsed = 0 →
      st.delivered = none ∧ st.outBytes = [] ∧ st.action = .continueLoop := by
  intro input st h h0
  have h2 := (handleIncomingFrame_inv h).2
  rw [h0, if_neg (by omega : ¬ (0 : Nat) < 0)] at h2
  exact prod3_eq h2

/-- Witness for C10 at the masked empty close frame. -/
theorem dispatch_requires_payload_witness :
    emptyCloseStep.delivered = none ∧ emptyCloseStep.outBytes = [] ∧
    emptyCloseStep.action = .continueLoop :=
  dispatch_requires_payload emptyCloseInput emptyCloseStep (by decide) (by decide)

